import Mathlib

/-!
Shallow embedding of the ai-diagnostic-operator's two reconcilers
(`PodWatcherReconciler` in `api/v1/poddiagnosis_types.go` and
`PodDiagnosisReconciler` in `internal/controller/poddiagnosis_controller.go`),
together with the reasoning-service client `callAIEndpoint` and a model of
Go's `encoding/json` unmarshalling as used by that client.

External effects (resource-store get/list/create/patch, the pod log stream,
the HTTP call) are supplied through explicit environment records; each
reconciliation pass is a pure function from its environment to the effects
it performs plus the error it returns to the delivery layer.
-/

namespace AIDiagnostic

/-! ## Pod data model (corev1 subset used by the source) -/

structure ContainerStateWaiting where
  reason : String
  deriving DecidableEq, Repr

structure ContainerStateTerminated where
  exitCode : Int
  reason : String
  deriving DecidableEq, Repr

/-- Mirrors `corev1.ContainerState`: both pointers optional, as in Go. -/
structure ContainerState where
  waiting : Option ContainerStateWaiting
  terminated : Option ContainerStateTerminated
  deriving DecidableEq, Repr

structure ContainerStatus where
  name : String
  state : ContainerState
  deriving DecidableEq, Repr

structure PodCondition where
  type : String
  status : String
  reason : String
  message : String
  deriving DecidableEq, Repr

structure PodStatus where
  phase : String
  conditions : List PodCondition
  containerStatuses : List ContainerStatus
  deriving DecidableEq, Repr

structure Pod where
  name : String
  namespace_ : String
  status : PodStatus
  deriving DecidableEq, Repr

/-! ## DiagnosisRequest (PodDiagnosis) data model -/

structure PodDiagnosisSpec where
  podName : String
  namespace_ : String
  triggerReason : String
  tailLines : Int
  deriving DecidableEq, Repr

structure PodDiagnosisStatus where
  phase : String
  rootCause : String
  suggestion : String
  diagnosisTime : Option Nat
  deriving DecidableEq, Repr

structure ObjectMeta where
  name : String
  generateName : String
  namespace_ : String
  labels : List (String × String)
  ownerPod : Option String
  deriving DecidableEq, Repr

structure PodDiagnosis where
  meta : ObjectMeta
  spec : PodDiagnosisSpec
  status : PodDiagnosisStatus
  deriving DecidableEq, Repr

/-! ## Failure classifier `isPodFailed` (poddiagnosis_types.go:179-221) -/

/-- The waiting reasons treated as failures while the pod is Pending. -/
def pendingWaitingFailure (reason : String) : Bool :=
  reason == "ImagePullBackOff" || reason == "ErrImagePull" ||
  reason == "CrashLoopBackOff" || reason == "CreateContainerError"

/-- The third check's loop over container statuses: tracks `allTerminated`
and `hasNonZero`, returning `true` early when a non-terminated container is
waiting with reason CrashLoopBackOff or CreateContainerError, and otherwise
`allTerminated && hasNonZero` at the end. -/
def podFailedContainerCheck : List ContainerStatus → Bool → Bool → Bool
  | [], allTerminated, hasNonZero => allTerminated && hasNonZero
  | s :: rest, _allTerminated, hasNonZero =>
    match s.state.terminated with
    | none =>
      match s.state.waiting with
      | some w =>
        if w.reason == "CrashLoopBackOff" || w.reason == "CreateContainerError" then true
        else podFailedContainerCheck rest false hasNonZero
      | none => podFailedContainerCheck rest false hasNonZero
    | some t =>
      if t.exitCode != 0 then podFailedContainerCheck rest _allTerminated true
      else podFailedContainerCheck rest _allTerminated hasNonZero

def isPodFailed (pod : Pod) : Bool :=
  if pod.status.phase == "Failed" then true
  else
    (if pod.status.phase == "Pending" then
      pod.status.conditions.any (fun c =>
        c.type == "PodScheduled" && c.status == "False" && c.reason == "Unschedulable") ||
      pod.status.containerStatuses.any (fun s =>
        match s.state.waiting with
        | some w => pendingWaitingFailure w.reason
        | none => false)
    else false) ||
    podFailedContainerCheck pod.status.containerStatuses true false

/-! ## `getFailureReason` (poddiagnosis_types.go:222-238) -/

/-- Loop over container statuses: first container whose terminated state has
a non-zero exit code yields the formatted message. -/
def containerExitReason : List ContainerStatus → Option String
  | [] => none
  | s :: rest =>
    match s.state.terminated with
    | some t =>
      if t.exitCode != 0 then
        some ("Container " ++ s.name ++ " exited with code " ++ toString t.exitCode ++ ": " ++ t.reason)
      else containerExitReason rest
    | none => containerExitReason rest

def getFailureReason (pod : Pod) : String :=
  match (if pod.status.phase == "Failed" then
          pod.status.conditions.find? (fun c =>
            c.type == "Unschedulable" && c.status == "True")
        else none) with
  | some cond => "Unschedulable: " ++ cond.message
  | none =>
    match containerExitReason pod.status.containerStatuses with
    | some msg => msg
    | none => "unknown failure"

/-! ## Event filter (poddiagnosis_types.go:156-177, `SetupWithManager`) -/

/-- `CreateFunc`: admit a creation event iff the created pod is failed. -/
def createFunc (obj : Pod) : Bool := isPodFailed obj

/-- `UpdateFunc`: admit an update event iff the prior state is not failed
and the new state is failed. -/
def updateFunc (objOld objNew : Pod) : Bool :=
  !(isPodFailed objOld) && isPodFailed objNew

/-- `DeleteFunc`: never admit deletion events. -/
def deleteFunc (_obj : Pod) : Bool := false

/-- `GenericFunc`: never admit generic events. -/
def genericFunc (_obj : Pod) : Bool := false

/-! ## Store-access outcomes -/

/-- Outcome of a resource-store `Get`: found, not-found (ignored by both
reconcilers), or another store error. -/
inductive GetOutcome (α : Type) where
  | found (x : α)
  | notFound
  | storeErr (msg : String)
  deriving DecidableEq, Repr

/-! ## PodWatcherReconciler.Reconcile (poddiagnosis_types.go:91-153) -/

/-- Environment of one watcher pass: outcomes of the store operations it
may perform. `listResult` is the store's answer to
`List(InNamespace(pod.Namespace), MatchingFields(spec.podName = pod.Name))`. -/
structure WatcherEnv where
  podGet : GetOutcome Pod
  listResult : Except String (List PodDiagnosis)
  setRefResult : Except String Unit
  createResult : Except String Unit
  deriving Repr

structure WatcherEffects where
  created : Option PodDiagnosis
  result : Except String Unit
  deriving Repr

/-- The PodDiagnosis object built at poddiagnosis_types.go:123-138. -/
def newDiagnosisFor (pod : Pod) : PodDiagnosis :=
  { meta := { name := ""
              generateName := pod.name ++ "-diagnosis-"
              namespace_ := pod.namespace_
              labels := [("diagnosed-pod", pod.name), ("created-by", "pod-watcher")]
              ownerPod := some pod.name }
    spec := { podName := pod.name
              namespace_ := pod.namespace_
              triggerReason := "Pod entered failed state: " ++ getFailureReason pod
              tailLines := 100 }
    status := { phase := "", rootCause := "", suggestion := "", diagnosisTime := none } }

/-- A diagnosis is non-terminal iff its phase is neither Completed nor
Failed (the dedup loop at poddiagnosis_types.go:115-120). -/
def nonTerminal (d : PodDiagnosis) : Bool :=
  d.status.phase != "Completed" && d.status.phase != "Failed"

def podWatcherReconcile (env : WatcherEnv) : WatcherEffects :=
  match env.podGet with
  | .storeErr e => { created := none, result := .error e }
  | .notFound => { created := none, result := .ok () }
  | .found pod =>
    if !(isPodFailed pod) then { created := none, result := .ok () }
    else
      match env.listResult with
      | .error e => { created := none, result := .error e }
      | .ok items =>
        if items.any nonTerminal then { created := none, result := .ok () }
        else
          match env.setRefResult with
          | .error e => { created := none, result := .error e }
          | .ok _ =>
            match env.createResult with
            | .error e => { created := some (newDiagnosisFor pod), result := .error e }
            | .ok _ => { created := some (newDiagnosisFor pod), result := .ok () }

/-! ## Store-level view for the dedup invariant -/

/-- The set of diagnoses the store returns for the watcher's filtered list:
same namespace as the pod and `spec.podName` equal to the pod's name. -/
def filteredFor (store : List PodDiagnosis) (pod : Pod) : List PodDiagnosis :=
  store.filter (fun d => d.meta.namespace_ == pod.namespace_ && d.spec.podName == pod.name)

/-- Diagnosis keyed by (target pod name, namespace). -/
def keyMatches (n ns : String) (d : PodDiagnosis) : Bool :=
  d.spec.podName == n && d.meta.namespace_ == ns

/-- At most one non-terminal DiagnosisRequest per (pod name, namespace). -/
def atMostOneNonTerminal (store : List PodDiagnosis) : Prop :=
  ∀ n ns, (store.countP (fun d => keyMatches n ns d && nonTerminal d)) ≤ 1

/-- Effect of one watcher pass on the store: the created object is appended
when the store accepted the Create call. -/
def watcherApply (store : List PodDiagnosis) (env : WatcherEnv) : List PodDiagnosis :=
  match (podWatcherReconcile env).created, env.createResult with
  | some d, .ok _ => store ++ [d]
  | _, _ => store

/-! ## JSON model (Go `encoding/json`, as used by `callAIEndpoint`) -/

inductive Json where
  | null
  | bool (b : Bool)
  | num (raw : String)
  | str (s : String)
  | arr (elems : List Json)
  | obj (fields : List (String × Json))
  deriving Repr

def jsonWs (c : Char) : Bool :=
  c == ' ' || c == '\t' || c == '\n' || c == '\r'

def skipWs : List Char → List Char
  | [] => []
  | c :: cs => if jsonWs c then skipWs cs else c :: cs

def hexDigitVal (c : Char) : Option Nat :=
  if 48 ≤ c.toNat ∧ c.toNat ≤ 57 then some (c.toNat - 48)
  else if 97 ≤ c.toNat ∧ c.toNat ≤ 102 then some (c.toNat - 87)
  else if 65 ≤ c.toNat ∧ c.toNat ≤ 70 then some (c.toNat - 55)
  else none

def parse4Hex : List Char → Option (Nat × List Char)
  | a :: b :: c :: d :: rest =>
    match hexDigitVal a, hexDigitVal b, hexDigitVal c, hexDigitVal d with
    | some x, some y, some z, some w => some (((x * 16 + y) * 16 + z) * 16 + w, rest)
    | _, _, _, _ => none
  | _ => none

def simpleEscape : Char → Option Char
  | 'n' => some '\n'
  | 't' => some '\t'
  | 'r' => some '\r'
  | '"' => some '"'
  | '\\' => some '\\'
  | '/' => some '/'
  | 'b' => some (Char.ofNat 8)
  | 'f' => some (Char.ofNat 12)
  | _ => none

/-- Body of a JSON string literal (after the opening quote), decoding
escapes; lone surrogates become U+FFFD as in Go. -/
def parseStringBody (fuel : Nat) (cs : List Char) (acc : List Char) :
    Except String (String × List Char) :=
  match fuel with
  | 0 => .error "string literal too long"
  | fuel + 1 =>
    match cs with
    | [] => .error "unexpected end of string literal"
    | c :: rest =>
      if c == '"' then .ok (String.mk acc.reverse, rest)
      else if c == '\\' then
        match rest with
        | [] => .error "unexpected end of escape"
        | e :: rest2 =>
          if e == 'u' then
            match parse4Hex rest2 with
            | none => .error "invalid unicode escape"
            | some (n, rest3) =>
              if 0xD800 ≤ n ∧ n ≤ 0xDBFF then
                match rest3 with
                | '\\' :: 'u' :: rest4 =>
                  match parse4Hex rest4 with
                  | some (m, rest5) =>
                    if 0xDC00 ≤ m ∧ m ≤ 0xDFFF then
                      parseStringBody fuel rest5
                        (Char.ofNat (0x10000 + (n - 0xD800) * 0x400 + (m - 0xDC00)) :: acc)
                    else parseStringBody fuel rest3 (Char.ofNat 0xFFFD :: acc)
                  | none => parseStringBody fuel rest3 (Char.ofNat 0xFFFD :: acc)
                | _ => parseStringBody fuel rest3 (Char.ofNat 0xFFFD :: acc)
              else if 0xDC00 ≤ n ∧ n ≤ 0xDFFF then
                parseStringBody fuel rest3 (Char.ofNat 0xFFFD :: acc)
              else parseStringBody fuel rest3 (Char.ofNat n :: acc)
          else
            match simpleEscape e with
            | some d => parseStringBody fuel rest2 (d :: acc)
            | none => .error "invalid escape character"
      else if c.toNat < 32 then .error "control character in string literal"
      else parseStringBody fuel rest (c :: acc)

def takeDigits : List Char → (List Char × List Char)
  | [] => ([], [])
  | c :: cs =>
    if c.isDigit then
      let (ds, rest) := takeDigits cs
      (c :: ds, rest)
    else ([], c :: cs)

def parseIntPart : List Char → Option (List Char × List Char)
  | [] => none
  | c :: rest =>
    if c == '0' then some (['0'], rest)
    else if c.isDigit then
      let (ds, r) := takeDigits rest
      some (c :: ds, r)
    else none

def parseFracPart : List Char → Option (List Char × List Char)
  | '.' :: rest =>
    match rest with
    | c :: _ =>
      if c.isDigit then
        let (ds, r) := takeDigits rest
        some ('.' :: ds, r)
      else none
    | [] => none
  | cs => some ([], cs)

def parseExpPart : List Char → Option (List Char × List Char)
  | [] => some ([], [])
  | c :: rest =>
    if c == 'e' || c == 'E' then
      match rest with
      | [] => none
      | s :: rest2 =>
        if s == '+' || s == '-' then
          match rest2 with
          | [] => none
          | d :: _ =>
            if d.isDigit then
              let (ds, r) := takeDigits rest2
              some (c :: s :: ds, r)
            else none
        else if s.isDigit then
          let (ds, r) := takeDigits rest
          some (c :: ds, r)
        else none
    else some ([], c :: rest)

def parseNumber (cs : List Char) : Except String (String × List Char) :=
  let (neg, cs1) :=
    match cs with
    | '-' :: rest => ([Char.ofNat 45], rest)
    | _ => (([] : List Char), cs)
  match parseIntPart cs1 with
  | none => .error "invalid number literal"
  | some (ip, cs2) =>
    match parseFracPart cs2 with
    | none => .error "invalid number literal"
    | some (fp, cs3) =>
      match parseExpPart cs3 with
      | none => .error "invalid number literal"
      | some (ep, cs4) => .ok (String.mk (neg ++ ip ++ fp ++ ep), cs4)

/-- The three recursion modes of the value parser: a value, the members of
an object after its opening brace, or the elements of an array after its
opening bracket. -/
inductive ParseMode where
  | value
  | members (acc : List (String × Json))
  | elements (acc : List Json)

def parseCore : Nat → ParseMode → List Char → Except String (Json × List Char)
  | 0, _, _ => .error "value nesting too deep"
  | fuel + 1, .value, cs =>
    (match skipWs cs with
    | [] => .error "unexpected end of input"
    | c :: rest =>
      if c == Char.ofNat 123 then
        match skipWs rest with
        | [] => .error "unexpected end of object"
        | d :: rest2 =>
          if d == Char.ofNat 125 then .ok (.obj [], rest2)
          else parseCore fuel (.members []) (d :: rest2)
      else if c == '[' then
        match skipWs rest with
        | [] => .error "unexpected end of array"
        | d :: rest2 =>
          if d == ']' then .ok (.arr [], rest2)
          else parseCore fuel (.elements []) (d :: rest2)
      else if c == '"' then
        match parseStringBody (rest.length + 1) rest [] with
        | .error e => .error e
        | .ok (s, rest2) => .ok (.str s, rest2)
      else if c == 't' then
        match rest with
        | 'r' :: 'u' :: 'e' :: rest2 => .ok (.bool true, rest2)
        | _ => .error "invalid literal"
      else if c == 'f' then
        match rest with
        | 'a' :: 'l' :: 's' :: 'e' :: rest2 => .ok (.bool false, rest2)
        | _ => .error "invalid literal"
      else if c == 'n' then
        match rest with
        | 'u' :: 'l' :: 'l' :: rest2 => .ok (.null, rest2)
        | _ => .error "invalid literal"
      else if c == '-' || c.isDigit then
        match parseNumber (c :: rest) with
        | .error e => .error e
        | .ok (raw, rest2) => .ok (.num raw, rest2)
      else .error "invalid character at start of value")
  | fuel + 1, .members acc, cs =>
    (match skipWs cs with
    | '"' :: rest =>
      match parseStringBody (rest.length + 1) rest [] with
      | .error e => .error e
      | .ok (key, rest2) =>
        match skipWs rest2 with
        | ':' :: rest3 =>
          match parseCore fuel .value rest3 with
          | .error e => .error e
          | .ok (v, rest4) =>
            match skipWs rest4 with
            | ',' :: rest5 => parseCore fuel (.members (acc ++ [(key, v)])) rest5
            | d :: rest5 =>
              if d == Char.ofNat 125 then .ok (.obj (acc ++ [(key, v)]), rest5)
              else .error "expected comma or end of object"
            | [] => .error "unexpected end of object"
        | _ => .error "expected colon in object member"
    | _ => .error "expected string key in object")
  | fuel + 1, .elements acc, cs =>
    (match parseCore fuel .value cs with
    | .error e => .error e
    | .ok (v, rest) =>
      match skipWs rest with
      | ',' :: rest2 => parseCore fuel (.elements (acc ++ [v])) rest2
      | ']' :: rest2 => .ok (.arr (acc ++ [v]), rest2)
      | _ => .error "expected comma or end of array")

def parseValue (fuel : Nat) (cs : List Char) : Except String (Json × List Char) :=
  parseCore fuel .value cs

def topFuel (cs : List Char) : Nat := 2 * cs.length + 8

/-- Syntax layer of `json.Unmarshal`: one JSON value followed by only
whitespace. -/
def parseJson (s : String) : Except String Json :=
  match parseValue (topFuel s.data) s.data with
  | .error e => .error e
  | .ok (j, rest) =>
    if (skipWs rest).isEmpty then .ok j
    else .error "invalid character after top-level value"

/-- Syntax layer of `json.Decoder.Decode`: the first JSON value of the
stream; trailing data is left unread. -/
def decodeFirstJson (s : String) : Except String Json :=
  match parseValue (topFuel s.data) s.data with
  | .error e => .error e
  | .ok (j, _) => .ok j

/-! ## Go struct decoding for `DiagnosisResult` and `AIResponse` -/

structure DiagnosisResult where
  rootCause : String
  suggestion : String
  deriving DecidableEq, Repr

def toLowerChar (c : Char) : Char :=
  if 65 ≤ c.toNat ∧ c.toNat ≤ 90 then Char.ofNat (c.toNat + 32) else c

/-- Go matches JSON keys to struct fields case-insensitively. -/
def lowerEqKey (k field : String) : Bool :=
  k.data.map toLowerChar == field.data.map toLowerChar

/-- Decoding a JSON value into a Go `string` field: strings assign, `null`
is a no-op, anything else is a type error. -/
def decodeStringField (cur : String) (v : Json) : Except String String :=
  match v with
  | .str s => .ok s
  | .null => .ok cur
  | _ => .error "cannot unmarshal value into Go string field"

def foldDiagnosisFields : List (String × Json) → DiagnosisResult → Except String DiagnosisResult
  | [], acc => .ok acc
  | (k, v) :: rest, acc =>
    if lowerEqKey k "rootCause" then
      match decodeStringField acc.rootCause v with
      | .error e => .error e
      | .ok s => foldDiagnosisFields rest { acc with rootCause := s }
    else if lowerEqKey k "suggestion" then
      match decodeStringField acc.suggestion v with
      | .error e => .error e
      | .ok s => foldDiagnosisFields rest { acc with suggestion := s }
    else foldDiagnosisFields rest acc

/-- `json.Unmarshal` of a JSON value into `DiagnosisResult`: objects decode
field by field (absent fields keep their zero value), `null` is a no-op,
anything else is a type error. -/
def decodeDiagnosisResult (j : Json) : Except String DiagnosisResult :=
  match j with
  | .obj fields => foldDiagnosisFields fields { rootCause := "", suggestion := "" }
  | .null => .ok { rootCause := "", suggestion := "" }
  | _ => .error "cannot unmarshal value into Go struct DiagnosisResult"

def unmarshalDiagnosisResult (content : String) : Except String DiagnosisResult :=
  match parseJson content with
  | .error e => .error e
  | .ok j => decodeDiagnosisResult j

structure ChoiceMessage where
  content : String
  deriving DecidableEq, Repr

structure Choice where
  message : ChoiceMessage
  deriving DecidableEq, Repr

structure AIResponse where
  choices : List Choice
  deriving DecidableEq, Repr

def foldChoiceMessageFields : List (String × Json) → ChoiceMessage → Except String ChoiceMessage
  | [], acc => .ok acc
  | (k, v) :: rest, acc =>
    if lowerEqKey k "content" then
      match decodeStringField acc.content v with
      | .error e => .error e
      | .ok s => foldChoiceMessageFields rest { acc with content := s }
    else foldChoiceMessageFields rest acc

def decodeChoiceMessage (j : Json) : Except String ChoiceMessage :=
  match j with
  | .obj fields => foldChoiceMessageFields fields { content := "" }
  | .null => .ok { content := "" }
  | _ => .error "cannot unmarshal value into Go struct message"

def foldChoiceFields : List (String × Json) → Choice → Except String Choice
  | [], acc => .ok acc
  | (k, v) :: rest, acc =>
    if lowerEqKey k "message" then
      match decodeChoiceMessage v with
      | .error e => .error e
      | .ok m => foldChoiceFields rest { acc with message := m }
    else foldChoiceFields rest acc

def decodeChoice (j : Json) : Except String Choice :=
  match j with
  | .obj fields => foldChoiceFields fields { message := { content := "" } }
  | .null => .ok { message := { content := "" } }
  | _ => .error "cannot unmarshal value into Go struct choice"

def decodeChoiceList : List Json → Except String (List Choice)
  | [] => .ok []
  | j :: rest =>
    match decodeChoice j with
    | .error e => .error e
    | .ok c =>
      match decodeChoiceList rest with
      | .error e => .error e
      | .ok cs => .ok (c :: cs)

def foldAIResponseFields : List (String × Json) → AIResponse → Except String AIResponse
  | [], acc => .ok acc
  | (k, v) :: rest, acc =>
    if lowerEqKey k "choices" then
      match v with
      | .arr elems =>
        match decodeChoiceList elems with
        | .error e => .error e
        | .ok cs => foldAIResponseFields rest { acc with choices := cs }
      | .null => foldAIResponseFields rest { acc with choices := [] }
      | _ => .error "cannot unmarshal value into Go slice choices"
    else foldAIResponseFields rest acc

def decodeAIResponse (j : Json) : Except String AIResponse :=
  match j with
  | .obj fields => foldAIResponseFields fields { choices := [] }
  | .null => .ok { choices := [] }
  | _ => .error "cannot unmarshal value into Go struct AIResponse"

/-- `json.NewDecoder(resp.Body).Decode(&aiResp)`
(poddiagnosis_controller.go:132-135). -/
def decodeAIResponseBody (body : String) : Except String AIResponse :=
  match decodeFirstJson body with
  | .error e => .error e
  | .ok j => decodeAIResponse j

/-! ## Reasoning-service client `callAIEndpoint`
(poddiagnosis_controller.go:91-149) -/

structure HttpResponse where
  statusCode : Nat
  body : String
  deriving DecidableEq, Repr

/-- Environment of one `callAIEndpoint` invocation: the ambient
configuration (`AI_API_KEY`, `AI_API_URL`, `AI_MODEL`) and the network's
answer to the POST. -/
structure AIEnv where
  apiKey : String
  apiURL : String
  modelName : String
  httpResult : Except String HttpResponse
  deriving Repr

/-- Inner-content unmarshalling step (poddiagnosis_controller.go:143-146):
a failure is wrapped in an error naming the raw content. -/
def parseDiagnosisContent (content : String) : Except String DiagnosisResult :=
  match unmarshalDiagnosisResult content with
  | .error e =>
    .error ("反序列化 DiagnosisResult 失败, AI 返回内容为: " ++ content ++ ", error: " ++ e)
  | .ok r => .ok r

def callAIEndpoint (env : AIEnv) (_podName _triggerReason _logs : String) :
    Except String DiagnosisResult :=
  if env.apiKey == "" || env.apiURL == "" then
    .error "AI_API_KEY 或 AI_API_URL 未配置"
  else
    match env.httpResult with
    | .error e => .error ("调用 AI 接口失败: " ++ e)
    | .ok resp =>
      if resp.statusCode != 200 then
        .error ("AI 接口返回非 200 状态码: " ++ toString resp.statusCode)
      else
        match decodeAIResponseBody resp.body with
        | .error e => .error ("解析 AI 响应失败: " ++ e)
        | .ok aiResp =>
          match aiResp.choices with
          | [] => .error "AI 响应内容为空"
          | c :: _ => parseDiagnosisContent c.message.content

/-! ## PodDiagnosisReconciler.Reconcile (poddiagnosis_controller.go:150-232) -/

/-- A `GetLogs` request issued to the log source (namespace, pod, tail
limit), as built in `getPodLogs` (poddiagnosis_controller.go:234-250). -/
structure LogRequest where
  namespace_ : String
  podName : String
  tailLines : Int
  deriving DecidableEq, Repr

/-- One `Status().Patch(ctx, &diagnosis, client.MergeFrom(base))` call:
the snapshot the merge-patch is computed against and the mutated status. -/
structure StatusPatch where
  base : PodDiagnosisStatus
  new : PodDiagnosisStatus
  deriving DecidableEq, Repr

/-- One `Recorder.Eventf` call on the target pod. -/
structure PodEvent where
  podName : String
  eventType : String
  reason : String
  message : String
  deriving DecidableEq, Repr

/-- Environment of one lifecycle pass: outcomes of the store get, the log
fetch, the reasoning call's configuration and network answer, the target-pod
get before event emission, the status patch, and the wall clock. -/
structure ReconcileEnv where
  getDiagnosis : GetOutcome PodDiagnosis
  logsResult : Except String String
  aiEnv : AIEnv
  podGet : GetOutcome Pod
  patchResult : Except String Unit
  now : Nat
  deriving Repr

structure ReconcileEffects where
  logRequest : Option LogRequest
  aiCalled : Bool
  patches : List StatusPatch
  events : List PodEvent
  result : Except String Unit
  deriving Repr

def noEffects (result : Except String Unit) : ReconcileEffects :=
  { logRequest := none, aiCalled := false, patches := [], events := [], result := result }

def reconcile (env : ReconcileEnv) : ReconcileEffects :=
  match env.getDiagnosis with
  | .storeErr e => noEffects (.error e)
  | .notFound => noEffects (.ok ())
  | .found diagnosis =>
    if diagnosis.status.phase == "Completed" || diagnosis.status.phase == "Failed" then
      noEffects (.ok ())
    else
      let targetPodName := diagnosis.spec.podName
      let namespace_ := diagnosis.spec.namespace_
      let tailLines := if diagnosis.spec.tailLines == 0 then 100 else diagnosis.spec.tailLines
      let logReq : LogRequest :=
        { namespace_ := namespace_, podName := targetPodName, tailLines := tailLines }
      match env.logsResult with
      | .error e =>
        let base := diagnosis.status
        let newStatus : PodDiagnosisStatus :=
          { base with
            phase := "Failed"
            rootCause := "获取日志失败: " ++ e
            diagnosisTime := some env.now }
        { logRequest := some logReq, aiCalled := false
          patches := [{ base := base, new := newStatus }]
          events := [], result := .ok () }
      | .ok logs =>
        match callAIEndpoint env.aiEnv targetPodName diagnosis.spec.triggerReason logs with
        | .error e =>
          let base := diagnosis.status
          let newStatus : PodDiagnosisStatus :=
            { base with
              phase := "Failed"
              rootCause := "诊断失败: " ++ e
              diagnosisTime := some env.now }
          { logRequest := some logReq, aiCalled := true
            patches := [{ base := base, new := newStatus }]
            events := [], result := .ok () }
        | .ok diagnosisResult =>
          let events :=
            match env.podGet with
            | .found targetPod =>
              [{ podName := targetPod.name
                 eventType := "Warning"
                 reason := "AIDiagnosisResult"
                 message := "【AI 根因分析】: " ++ diagnosisResult.rootCause ++
                   " \n【修复建议】: " ++ diagnosisResult.suggestion : PodEvent }]
            | _ => []
          let base := diagnosis.status
          let newStatus : PodDiagnosisStatus :=
            { base with
              phase := "Completed"
              rootCause := diagnosisResult.rootCause
              suggestion := diagnosisResult.suggestion
              diagnosisTime := some env.now }
          { logRequest := some logReq, aiCalled := true
            patches := [{ base := base, new := newStatus }]
            events := events
            result := match env.patchResult with
                      | .error e => .error e
                      | .ok _ => .ok () }

/-! ## Spec-side characterization of the failure classifier (claim C1) -/


def badWaitingB (s : ContainerStatus) : Bool :=
  match s.state.terminated, s.state.waiting with
  | none, some w => w.reason == "CrashLoopBackOff" || w.reason == "CreateContainerError"
  | _, _ => false

def terminatedB (s : ContainerStatus) : Bool := s.state.terminated.isSome

def nonZeroExitB (s : ContainerStatus) : Bool :=
  match s.state.terminated with
  | some t => t.exitCode != 0
  | none => false

theorem podFailedContainerCheck_eq (l : List ContainerStatus) : ∀ allT hasNZ : Bool,
    podFailedContainerCheck l allT hasNZ =
      (l.any badWaitingB || ((allT && l.all terminatedB) && (hasNZ || l.any nonZeroExitB))) := by
  induction l with
  | nil => intro allT hasNZ; simp [podFailedContainerCheck]
  | cons s rest ih =>
    intro allT hasNZ
    cases hterm : s.state.terminated with
    | none =>
      cases hwait : s.state.waiting with
      | none =>
        simp only [podFailedContainerCheck, hterm, hwait, ih, List.any_cons, List.all_cons,
          badWaitingB, terminatedB, nonZeroExitB, Option.isSome]
        cases rest.any badWaitingB <;> simp
      | some w =>
        by_cases hb : (w.reason == "CrashLoopBackOff" || w.reason == "CreateContainerError") = true
        · simp only [podFailedContainerCheck, hterm, hwait, hb, if_pos, List.any_cons,
            badWaitingB]
          simp [hb]
        · simp only [podFailedContainerCheck, hterm, hwait, List.any_cons, List.all_cons,
            badWaitingB, terminatedB, nonZeroExitB, Option.isSome]
          rw [if_neg hb]
          simp only [ih]
          simp only [Bool.not_eq_true] at hb
          simp [hb]
    | some t =>
      by_cases hz : (t.exitCode != 0) = true
      · simp only [podFailedContainerCheck, hterm, ih, List.any_cons, List.all_cons,
          badWaitingB, terminatedB, nonZeroExitB, Option.isSome]
        rw [if_pos hz]
        simp [ih, hz]
      · simp only [podFailedContainerCheck, hterm, ih, List.any_cons, List.all_cons,
          badWaitingB, terminatedB, nonZeroExitB, Option.isSome]
        rw [if_neg hz]
        simp only [Bool.not_eq_true] at hz
        simp [ih, hz]


def badWaiting (s : ContainerStatus) : Prop :=
  ∃ w, s.state.waiting = some w ∧
    (w.reason = "CrashLoopBackOff" ∨ w.reason = "CreateContainerError")

def specCond1 (pod : Pod) : Prop := pod.status.phase = "Failed"

def specCond2 (pod : Pod) : Prop :=
  pod.status.phase = "Pending" ∧
  ((∃ c ∈ pod.status.conditions,
      c.type = "PodScheduled" ∧ c.status = "False" ∧ c.reason = "Unschedulable") ∨
   (∃ s ∈ pod.status.containerStatuses, ∃ w, s.state.waiting = some w ∧
      (w.reason = "ImagePullBackOff" ∨ w.reason = "ErrImagePull" ∨
       w.reason = "CrashLoopBackOff" ∨ w.reason = "CreateContainerError")))

def specCond3 (pod : Pod) : Prop :=
  ((∀ s ∈ pod.status.containerStatuses, s.state.terminated ≠ none) ∧
   (∃ s ∈ pod.status.containerStatuses, ∃ t, s.state.terminated = some t ∧ t.exitCode ≠ 0)) ∨
  ((∃ s ∈ pod.status.containerStatuses, s.state.terminated = none) ∧
   (∃ s ∈ pod.status.containerStatuses, s.state.terminated = none ∧ badWaiting s))

theorem badWaitingB_eq_true (s : ContainerStatus) :
    badWaitingB s = true ↔ s.state.terminated = none ∧ badWaiting s := by
  unfold badWaitingB badWaiting
  cases h1 : s.state.terminated <;> cases h2 : s.state.waiting <;> simp

theorem terminatedB_eq_true (s : ContainerStatus) :
    terminatedB s = true ↔ s.state.terminated ≠ none := by
  unfold terminatedB
  cases h : s.state.terminated <;> simp

theorem nonZeroExitB_eq_true (s : ContainerStatus) :
    nonZeroExitB s = true ↔ ∃ t, s.state.terminated = some t ∧ t.exitCode ≠ 0 := by
  unfold nonZeroExitB
  cases h : s.state.terminated <;> simp

theorem isPodFailed_iff (pod : Pod) :
    isPodFailed pod = true ↔ specCond1 pod ∨ specCond2 pod ∨ specCond3 pod := by
  unfold isPodFailed
  by_cases hf : pod.status.phase = "Failed"
  · simp [hf, specCond1]
  · rw [if_neg (by simpa using hf)]
    rw [podFailedContainerCheck_eq]
    have h3 : (pod.status.containerStatuses.any badWaitingB ||
        ((true && pod.status.containerStatuses.all terminatedB) &&
         (false || pod.status.containerStatuses.any nonZeroExitB))) = true ↔ specCond3 pod := by
      simp only [Bool.true_and, Bool.false_or, Bool.or_eq_true, Bool.and_eq_true,
        List.any_eq_true, List.all_eq_true, badWaitingB_eq_true, terminatedB_eq_true,
        nonZeroExitB_eq_true, specCond3]
      constructor
      · rintro (⟨s, hs, hn, hw⟩ | ⟨hall, s, hs, ht⟩)
        · exact Or.inr ⟨⟨s, hs, hn⟩, ⟨s, hs, hn, hw⟩⟩
        · exact Or.inl ⟨hall, ⟨s, hs, ht⟩⟩
      · rintro (⟨hall, s, hs, ht⟩ | ⟨_, s, hs, hn, hw⟩)
        · exact Or.inr ⟨hall, ⟨s, hs, ht⟩⟩
        · exact Or.inl ⟨s, hs, hn, hw⟩
    have h1 : ¬ specCond1 pod := hf
    by_cases hp : pod.status.phase = "Pending"
    · rw [if_pos (by simpa using hp)]
      have h2 : (pod.status.conditions.any (fun c =>
            c.type == "PodScheduled" && c.status == "False" && c.reason == "Unschedulable") ||
          pod.status.containerStatuses.any (fun s =>
            match s.state.waiting with
            | some w => pendingWaitingFailure w.reason
            | none => false)) = true ↔ specCond2 pod := by
        simp only [Bool.or_eq_true, List.any_eq_true, Bool.and_eq_true, beq_iff_eq,
          specCond2, pendingWaitingFailure]
        constructor
        · rintro (⟨c, hc, ⟨⟨hc1, hc2⟩, hc4⟩⟩ | ⟨s, hs, hm⟩)
          · exact ⟨hp, Or.inl ⟨c, hc, hc1, hc2, hc4⟩⟩
          · refine ⟨hp, Or.inr ⟨s, hs, ?_⟩⟩
            cases hw : s.state.waiting with
            | none => rw [hw] at hm; simp at hm
            | some w =>
              rw [hw] at hm
              simp only [Bool.or_eq_true, beq_iff_eq] at hm
              exact ⟨w, rfl, by tauto⟩
        · rintro ⟨_, (⟨c, hc, hc1, hc2, hc4⟩ | ⟨s, hs, w, hw, hr⟩)⟩
          · exact Or.inl ⟨c, hc, ⟨⟨hc1, hc2⟩, hc4⟩⟩
          · refine Or.inr ⟨s, hs, ?_⟩
            rw [hw]
            simp only [Bool.or_eq_true, beq_iff_eq]
            tauto
      rw [Bool.or_eq_true, h2, h3]
      constructor
      · exact fun h => h.elim (fun h => Or.inr (Or.inl h)) (fun h => Or.inr (Or.inr h))
      · rintro (h | h | h)
        · exact absurd h h1
        · exact Or.inl h
        · exact Or.inr h
    · rw [if_neg (by simpa using hp), Bool.false_or, h3]
      have h2 : ¬ specCond2 pod := fun h => hp h.1
      constructor
      · exact fun h => Or.inr (Or.inr h)
      · rintro (h | h | h)
        · exact absurd h h1
        · exact absurd h h2
        · exact h

/-! ## Concrete states used by witnesses and counterexamples -/

/-- A container waiting in CrashLoopBackOff with no terminated state, as a
crash-looping container is reported between restarts. -/
def crashState : ContainerState :=
  { waiting := some { reason := "CrashLoopBackOff" }, terminated := none }

/-- A Running pod whose only container crash-loops. -/
def crashPod : Pod :=
  { name := "web"
    namespace_ := "prod"
    status := { phase := "Running"
                conditions := []
                containerStatuses := [{ name := "app", state := crashState }] } }

/-- A pod in the terminal-failure phase whose only container terminated
with exit code 0. -/
def zeroExitFailedPod : Pod :=
  { name := "batch"
    namespace_ := "prod"
    status := { phase := "Failed"
                conditions := []
                containerStatuses :=
                  [{ name := "job"
                     state := { waiting := none
                                terminated := some { exitCode := 0, reason := "Completed" } } }] } }

/-- A Running pod whose only container terminated with exit code 0. -/
def runningZeroPod : Pod :=
  { name := "ok"
    namespace_ := "prod"
    status := { phase := "Running"
                conditions := []
                containerStatuses :=
                  [{ name := "main"
                     state := { waiting := none
                                terminated := some { exitCode := 0, reason := "Completed" } } }] } }

/-- All of a pod's containers terminated with exit code zero. -/
def allZeroTerminatedB (s : ContainerStatus) : Bool :=
  match s.state.terminated with
  | some t => t.exitCode == 0
  | none => false

/-! ## Claim C1 -/

/-- C1 counterexample: the claim's closing sentence — "a pod with all
containers terminated and all exit codes zero is never classified failed" —
is false: a pod in phase Failed with its single container terminated at exit
code 0 is classified failed by condition (1). -/
theorem isPodFailed_allZeroTerminated_counterexample :
    zeroExitFailedPod.status.containerStatuses.all allZeroTerminatedB = true ∧
    isPodFailed zeroExitFailedPod = true := ⟨rfl, rfl⟩

/-- C1 (amended): `isPodFailed` returns true iff one of the three
documented conditions holds; and a pod with all containers terminated and
all exit codes zero is never classified failed provided its phase is
neither the terminal-failure phase nor pending. -/
theorem isPodFailed_characterization :
    (∀ pod : Pod, isPodFailed pod = true ↔ specCond1 pod ∨ specCond2 pod ∨ specCond3 pod) ∧
    (∀ pod : Pod, pod.status.phase ≠ "Failed" → pod.status.phase ≠ "Pending" →
      (∀ s ∈ pod.status.containerStatuses, ∃ t, s.state.terminated = some t ∧ t.exitCode = 0) →
      isPodFailed pod = false) := by
  refine ⟨isPodFailed_iff, ?_⟩
  intro pod hf hp hz
  unfold isPodFailed
  rw [if_neg (by simpa using hf), if_neg (by simpa using hp), podFailedContainerCheck_eq]
  have h1 : pod.status.containerStatuses.any badWaitingB = false := by
    rw [List.any_eq_false]
    intro s hs
    obtain ⟨t, ht, _⟩ := hz s hs
    intro hb
    rw [badWaitingB_eq_true, ht] at hb
    exact absurd hb.1 (by simp)
  have h2 : pod.status.containerStatuses.any nonZeroExitB = false := by
    rw [List.any_eq_false]
    intro s hs
    obtain ⟨t, ht, hz0⟩ := hz s hs
    intro hb
    rw [nonZeroExitB_eq_true] at hb
    obtain ⟨t2, ht2, hne⟩ := hb
    rw [ht] at ht2
    exact hne (by injection ht2 with h; rw [← h]; exact hz0)
  rw [h1, h2]
  simp

/-- C1 witness: the amended corollary applied to a Running pod whose only
container terminated with exit code 0. -/
theorem isPodFailed_characterization_witness :
    isPodFailed runningZeroPod = false :=
  isPodFailed_characterization.2 runningZeroPod (by decide) (by decide)
    (fun s hs => by
      simp only [runningZeroPod, List.mem_singleton] at hs
      subst hs
      exact ⟨{ exitCode := 0, reason := "Completed" }, rfl, rfl⟩)

/-! ## Claim C2 -/

/-- C2: the watcher's event filter admits an update iff the prior state is
not failed and the current state is failed, admits a creation iff the
created pod is already failed, never admits deletion or generic events, and
a failed prior state never re-triggers on a later update. -/
theorem eventFilter_rising_edge :
    (∀ oldPod newPod : Pod,
      updateFunc oldPod newPod = true ↔
        isPodFailed oldPod = false ∧ isPodFailed newPod = true) ∧
    (∀ pod : Pod, createFunc pod = true ↔ isPodFailed pod = true) ∧
    (∀ pod : Pod, deleteFunc pod = false ∧ genericFunc pod = false) ∧
    (∀ oldPod newPod : Pod, isPodFailed oldPod = true →
      updateFunc oldPod newPod = false) := by
  refine ⟨?_, ?_, ?_, ?_⟩
  · intro o n
    unfold updateFunc
    cases h : isPodFailed o <;> simp [h]
  · intro p
    simp [createFunc]
  · intro p
    exact ⟨rfl, rfl⟩
  · intro o n h
    unfold updateFunc
    rw [h]
    rfl

/-- C2 witness: a crash-looping pod is failed, and an update keeping it
failed is filtered out. -/
theorem eventFilter_rising_edge_witness :
    isPodFailed crashPod = true ∧ updateFunc crashPod crashPod = false :=
  ⟨rfl, eventFilter_rising_edge.2.2.2 crashPod crashPod rfl⟩

/-! ## Claim C3 -/

/-- C3: when the fetched request's phase is already Completed or Failed,
the lifecycle pass performs nothing: no log fetch, no reasoning call, no
status patch, no event, and no returned error. -/
theorem reconcile_terminal_noop :
    ∀ (env : ReconcileEnv) (d : PodDiagnosis),
      env.getDiagnosis = .found d →
      (d.status.phase = "Completed" ∨ d.status.phase = "Failed") →
      reconcile env =
        { logRequest := none, aiCalled := false, patches := [], events := []
          result := .ok () } := by
  intro env d hget hterm
  have hcond : (d.status.phase == "Completed" || d.status.phase == "Failed") = true := by
    rcases hterm with h | h <;> simp [h]
  unfold reconcile
  rw [hget]
  simp only [hcond, if_true, noEffects]

/-- An AIEnv whose call would succeed; used only to populate environments. -/
def idleAIEnv : AIEnv :=
  { apiKey := "key", apiURL := "https://ai.example", modelName := "m"
    httpResult := .error "unused" }

/-- A request already in phase Completed. -/
def completedDiag : PodDiagnosis :=
  { meta := { name := "web-diagnosis-x", generateName := "web-diagnosis-"
              namespace_ := "prod", labels := [], ownerPod := some "web" }
    spec := { podName := "web", namespace_ := "prod"
              triggerReason := "Pod entered failed state: unknown failure", tailLines := 100 }
    status := { phase := "Completed", rootCause := "r", suggestion := "s"
                diagnosisTime := some 7 } }

def terminalEnv : ReconcileEnv :=
  { getDiagnosis := .found completedDiag, logsResult := .ok "log line"
    aiEnv := idleAIEnv, podGet := .notFound, patchResult := .ok (), now := 9 }

/-- C3 witness: re-reconciling a Completed request is a no-op. -/
theorem reconcile_terminal_noop_witness :
    reconcile terminalEnv =
      { logRequest := none, aiCalled := false, patches := [], events := []
        result := .ok () } :=
  reconcile_terminal_noop terminalEnv completedDiag rfl (Or.inl rfl)

/-! ## Claim C4 -/

/-- If the watcher creates anything, it is the diagnosis for the fetched
pod, and the filtered list the store returned had no non-terminal entry. -/
theorem podWatcherReconcile_created_inversion (env : WatcherEnv) (pod : Pod)
    (hget : env.podGet = .found pod) :
    (podWatcherReconcile env).created = none ∨
    ((podWatcherReconcile env).created = some (newDiagnosisFor pod) ∧
      ∀ items, env.listResult = .ok items → items.any nonTerminal = false) := by
  unfold podWatcherReconcile
  rw [hget]
  dsimp only
  by_cases hfail : isPodFailed pod
  · rw [if_neg (by simp [hfail])]
    cases hlist : env.listResult with
    | error e => exact Or.inl rfl
    | ok items =>
      dsimp only
      by_cases hany : items.any nonTerminal = true
      · rw [if_pos hany]
        exact Or.inl rfl
      · rw [if_neg hany]
        have hanyf : items.any nonTerminal = false := by
          cases h : items.any nonTerminal
          · rfl
          · exact absurd h hany
        cases hsr : env.setRefResult with
        | error e => exact Or.inl rfl
        | ok u =>
          cases hcr : env.createResult with
          | error e =>
            refine Or.inr ⟨rfl, ?_⟩
            intro items2 hi2
            injection hi2 with h
            rw [← h]
            exact hanyf
          | ok u2 =>
            refine Or.inr ⟨rfl, ?_⟩
            intro items2 hi2
            injection hi2 with h
            rw [← h]
            exact hanyf
  · rw [if_pos (by simp [hfail])]
    exact Or.inl rfl

/-- Appending the watcher's new diagnosis to a store whose filtered slice
for the pod is all-terminal preserves the one-non-terminal-per-key bound. -/
theorem append_newDiagnosis_preserves (store : List PodDiagnosis) (pod : Pod)
    (hclean : (filteredFor store pod).any nonTerminal = false)
    (hinv : atMostOneNonTerminal store) :
    atMostOneNonTerminal (store ++ [newDiagnosisFor pod]) := by
  intro n ns
  rw [List.countP_append]
  by_cases hk : n = pod.name ∧ ns = pod.namespace_
  · have hzero : store.countP (fun d => keyMatches n ns d && nonTerminal d) = 0 := by
      rw [List.countP_eq_zero]
      intro d hd hp
      simp only [Bool.and_eq_true] at hp
      have hkm := hp.1
      unfold keyMatches at hkm
      simp only [Bool.and_eq_true, beq_iff_eq] at hkm
      have hmem : d ∈ filteredFor store pod := by
        unfold filteredFor
        rw [List.mem_filter]
        refine ⟨hd, ?_⟩
        simp only [Bool.and_eq_true, beq_iff_eq]
        exact ⟨hkm.2.trans hk.2, hkm.1.trans hk.1⟩
      rw [List.any_eq_false] at hclean
      exact absurd hp.2 (by simpa using hclean d hmem)
    rw [hzero]
    have hone : List.countP (fun d => keyMatches n ns d && nonTerminal d)
        [newDiagnosisFor pod] ≤ 1 := by
      calc List.countP (fun d => keyMatches n ns d && nonTerminal d) [newDiagnosisFor pod]
          ≤ [newDiagnosisFor pod].length := List.countP_le_length _
        _ = 1 := rfl
    omega
  · have hzero1 : List.countP (fun d => keyMatches n ns d && nonTerminal d)
        [newDiagnosisFor pod] = 0 := by
      rw [List.countP_eq_zero]
      intro d hd hp
      simp only [List.mem_singleton] at hd
      subst hd
      simp only [Bool.and_eq_true] at hp
      have hkm := hp.1
      unfold keyMatches newDiagnosisFor at hkm
      simp only [Bool.and_eq_true, beq_iff_eq] at hkm
      exact hk ⟨hkm.1.symm, hkm.2.symm⟩
    rw [hzero1]
    have := hinv n ns
    omega

/-- C4: (skip) if the filtered list the store returned contains any
non-terminal request, the watcher creates nothing; and (invariant) a
watcher pass run against a store satisfying the at-most-one-non-terminal
bound, with an accurate filtered listing, preserves that bound. -/
theorem dedup_at_most_one_nonterminal :
    (∀ (env : WatcherEnv) (pod : Pod) (items : List PodDiagnosis) (d : PodDiagnosis),
      env.podGet = .found pod → env.listResult = .ok items →
      d ∈ items → nonTerminal d = true →
      (podWatcherReconcile env).created = none) ∧
    (∀ (store : List PodDiagnosis) (env : WatcherEnv) (pod : Pod),
      env.podGet = .found pod →
      env.listResult = .ok (filteredFor store pod) →
      atMostOneNonTerminal store →
      atMostOneNonTerminal (watcherApply store env)) := by
  constructor
  · intro env pod items d hget hlist hd hnt
    rcases podWatcherReconcile_created_inversion env pod hget with h | ⟨_, hall⟩
    · exact h
    · exfalso
      have := hall items hlist
      rw [List.any_eq_false] at this
      exact absurd hnt (by simpa using this d hd)
  · intro store env pod hget hlist hinv
    unfold watcherApply
    rcases podWatcherReconcile_created_inversion env pod hget with h | ⟨h, hall⟩
    · rw [h]
      exact hinv
    · rw [h]
      cases hcr : env.createResult with
      | error e => exact hinv
      | ok u => exact append_newDiagnosis_preserves store pod (hall _ hlist) hinv

def watcherEnvW : WatcherEnv :=
  { podGet := .found crashPod, listResult := .ok (filteredFor [] crashPod)
    setRefResult := .ok (), createResult := .ok () }

/-- C4 witness: a watcher pass over an empty store creates one request and
the bound holds afterwards. -/
theorem dedup_at_most_one_nonterminal_witness :
    atMostOneNonTerminal (watcherApply [] watcherEnvW) :=
  dedup_at_most_one_nonterminal.2 [] watcherEnvW crashPod rfl rfl
    (fun n ns => by simp [atMostOneNonTerminal, List.countP_nil])

/-! ## Claim C9 -/

/-- C9: a processed request's log fetch uses tail limit 100 when the spec's
tail-line count is 0, and exactly the spec's count otherwise. -/
theorem tailLines_default_substitution :
    ∀ (env : ReconcileEnv) (d : PodDiagnosis),
      env.getDiagnosis = .found d →
      d.status.phase ≠ "Completed" → d.status.phase ≠ "Failed" →
      (reconcile env).logRequest =
        some { namespace_ := d.spec.namespace_, podName := d.spec.podName
               tailLines := if d.spec.tailLines = 0 then 100 else d.spec.tailLines } := by
  intro env d hget hc hf
  have hterm : (d.status.phase == "Completed" || d.status.phase == "Failed") = false := by
    simp [hc, hf]
  have htail : (if d.spec.tailLines == 0 then (100 : Int) else d.spec.tailLines) =
      (if d.spec.tailLines = 0 then (100 : Int) else d.spec.tailLines) := by
    by_cases hz : d.spec.tailLines = 0 <;> simp [hz]
  unfold reconcile
  rw [hget]
  dsimp only
  rw [if_neg (by simp [hterm])]
  cases hlog : env.logsResult with
  | error e =>
    dsimp only
    rw [htail]
  | ok logs =>
    dsimp only
    cases hai : callAIEndpoint env.aiEnv d.spec.podName d.spec.triggerReason logs with
    | error e =>
      dsimp only
      rw [htail]
    | ok r =>
      dsimp only
      rw [htail]

/-- A pending request whose spec leaves tailLines at 0. -/
def zeroTailDiag : PodDiagnosis :=
  { meta := { name := "web-diagnosis-y", generateName := "web-diagnosis-"
              namespace_ := "prod", labels := [], ownerPod := some "web" }
    spec := { podName := "web", namespace_ := "prod"
              triggerReason := "t", tailLines := 0 }
    status := { phase := "", rootCause := "", suggestion := "", diagnosisTime := none } }

def zeroTailEnv : ReconcileEnv :=
  { getDiagnosis := .found zeroTailDiag, logsResult := .ok "log"
    aiEnv := idleAIEnv, podGet := .notFound, patchResult := .ok (), now := 3 }

/-- C9 witness: tailLines 0 in the spec yields a fetch of 100 lines. -/
theorem tailLines_default_substitution_witness :
    (reconcile zeroTailEnv).logRequest =
      some { namespace_ := "prod", podName := "web", tailLines := 100 } :=
  tailLines_default_substitution zeroTailEnv zeroTailDiag rfl
    (by decide) (by decide)

/-! ## Claim C10 -/

/-- C10: with configuration present, any HTTP status other than 200 makes
`callAIEndpoint` return the error naming the status code — independent of
the response body, which is never parsed — and a parsed diagnosis result is
only ever produced from a status-200 response. -/
theorem non200_status_is_error :
    (∀ (env : AIEnv) (p t l : String) (resp : HttpResponse),
      env.apiKey ≠ "" → env.apiURL ≠ "" →
      env.httpResult = .ok resp → resp.statusCode ≠ 200 →
      callAIEndpoint env p t l =
        .error ("AI 接口返回非 200 状态码: " ++ toString resp.statusCode)) ∧
    (∀ (env : AIEnv) (p t l : String) (r : DiagnosisResult),
      callAIEndpoint env p t l = .ok r →
      ∃ resp, env.httpResult = .ok resp ∧ resp.statusCode = 200) := by
  constructor
  · intro env p t l resp hkey hurl hhttp hstatus
    unfold callAIEndpoint
    rw [if_neg (by simp [hkey, hurl])]
    rw [hhttp]
    dsimp only
    rw [if_pos (by simpa using hstatus)]
  · intro env p t l r h
    unfold callAIEndpoint at h
    by_cases hcfg : (env.apiKey == "" || env.apiURL == "") = true
    · rw [if_pos hcfg] at h
      cases h
    · rw [if_neg hcfg] at h
      cases hhttp : env.httpResult with
      | error e =>
        rw [hhttp] at h
        cases h
      | ok resp =>
        rw [hhttp] at h
        dsimp only at h
        by_cases hstatus : resp.statusCode = 200
        · exact ⟨resp, rfl, hstatus⟩
        · rw [if_pos (by simpa using hstatus)] at h
          cases h

def env201 : AIEnv :=
  { apiKey := "key", apiURL := "https://ai.example", modelName := "m"
    httpResult := .ok { statusCode := 201, body := "ignored" } }

/-- C10 witness: a 201 response is rejected with the status-code error. -/
theorem non200_status_is_error_witness :
    callAIEndpoint env201 "p" "t" "l" = .error "AI 接口返回非 200 状态码: 201" :=
  non200_status_is_error.1 env201 "p" "t" "l"
    { statusCode := 201, body := "ignored" } (by decide) (by decide) rfl (by decide)

/-! ## Claim C5 -/

/-- Envelope whose first choice's content is the full two-field object
(braces written with hexadecimal escapes). -/
def roundTripBody : String :=
  "\x7b\"choices\":[\x7b\"message\":\x7b\"content\":\"\x7b\\\"rootCause\\\":\\\"OOM\\\",\\\"suggestion\\\":\\\"increase memory limit\\\"\x7d\"\x7d\x7d]\x7d"

def roundTripEnv : AIEnv :=
  { apiKey := "key", apiURL := "https://ai.example", modelName := "m"
    httpResult := .ok { statusCode := 200, body := roundTripBody } }

/-- Envelope whose first choice's content lacks the suggestion field. -/
def missingFieldBody : String :=
  "\x7b\"choices\":[\x7b\"message\":\x7b\"content\":\"\x7b\\\"rootCause\\\":\\\"OOM\\\"\x7d\"\x7d\x7d]\x7d"

def missingFieldEnv : AIEnv :=
  { apiKey := "key", apiURL := "https://ai.example", modelName := "m"
    httpResult := .ok { statusCode := 200, body := missingFieldBody } }

/-- Envelope whose first choice's content is not JSON at all. -/
def badContentBody : String :=
  "\x7b\"choices\":[\x7b\"message\":\x7b\"content\":\"oops\"\x7d\x7d]\x7d"

def badContentEnv : AIEnv :=
  { apiKey := "key", apiURL := "https://ai.example", modelName := "m"
    httpResult := .ok { statusCode := 200, body := badContentBody } }

/-- The inner content with only the rootCause field. -/
def missingSuggestionContent : String := "\x7b\"rootCause\":\"OOM\"\x7d"

/-- C5 counterexample: content missing one of the two required fields does
NOT yield a parse error — `json.Unmarshal` leaves absent struct fields at
their zero value, so the call succeeds with an empty suggestion. -/
theorem parse_missing_field_counterexample :
    callAIEndpoint missingFieldEnv "p" "t" "l" =
      .ok { rootCause := "OOM", suggestion := "" } := rfl

/-- C5 (amended): the two-field content round-trips to exactly those two
field values; any content that is not JSON yields a parse error naming the
raw content (and no successful result); but content that is valid JSON
missing one of the two fields parses successfully with that field empty. -/
theorem diagnosis_content_parsing :
    (callAIEndpoint roundTripEnv "p" "t" "l" =
      .ok { rootCause := "OOM", suggestion := "increase memory limit" }) ∧
    (∀ (env : AIEnv) (p t l : String) (resp : HttpResponse) (aiResp : AIResponse)
        (c : Choice) (cs : List Choice) (e : String),
      env.apiKey ≠ "" → env.apiURL ≠ "" → env.httpResult = .ok resp →
      resp.statusCode = 200 → decodeAIResponseBody resp.body = .ok aiResp →
      aiResp.choices = c :: cs → parseJson c.message.content = .error e →
      callAIEndpoint env p t l =
        .error ("反序列化 DiagnosisResult 失败, AI 返回内容为: " ++
          c.message.content ++ ", error: " ++ e)) ∧
    (unmarshalDiagnosisResult missingSuggestionContent =
      .ok { rootCause := "OOM", suggestion := "" }) := by
  refine ⟨rfl, ?_, rfl⟩
  intro env p t l resp aiResp c cs e hkey hurl hhttp hstatus hdecode hchoices hparse
  unfold callAIEndpoint
  rw [if_neg (by simp [hkey, hurl]), hhttp]
  dsimp only
  rw [if_neg (by simp [hstatus])]
  rw [hdecode]
  dsimp only
  rw [hchoices]
  dsimp only
  unfold parseDiagnosisContent unmarshalDiagnosisResult
  rw [hparse]

/-- C5 witness: non-JSON content "oops" yields the wrapping parse error
naming the raw content. -/
theorem diagnosis_content_parsing_witness :
    callAIEndpoint badContentEnv "p" "t" "l" =
      .error ("反序列化 DiagnosisResult 失败, AI 返回内容为: oops, error: invalid character at start of value") :=
  diagnosis_content_parsing.2.1 badContentEnv "p" "t" "l"
    { statusCode := 200, body := badContentBody }
    { choices := [{ message := { content := "oops" } }] }
    { message := { content := "oops" } } [] "invalid character at start of value"
    (by decide) (by decide) rfl rfl rfl rfl rfl

/-! ## Claim C6 -/

/-- Environment in which the log fetch fails and the subsequent Failed
status patch also fails. -/
def logFailEnv : ReconcileEnv :=
  { getDiagnosis := .found zeroTailDiag, logsResult := .error "boom"
    aiEnv := idleAIEnv, podGet := .notFound, patchResult := .error "patchboom", now := 5 }

/-- The patch the Failed transition of `logFailEnv` issues. -/
def failPatch : StatusPatch :=
  { base := zeroTailDiag.status
    new := { phase := "Failed", rootCause := "获取日志失败: boom"
             suggestion := "", diagnosisTime := some 5 } }

/-- C6 counterexample: the Failed transition after a log-fetch error sets
phase, root cause and timestamp in its patch but leaves suggestion
unchanged, so the three fields are not all set together. -/
theorem status_unit_counterexample :
    (reconcile logFailEnv).patches = [failPatch] ∧
    failPatch.new.rootCause ≠ failPatch.base.rootCause ∧
    failPatch.new.diagnosisTime ≠ failPatch.base.diagnosisTime ∧
    failPatch.new.suggestion = failPatch.base.suggestion :=
  ⟨rfl, by decide, by decide, rfl⟩

/-- C6 (amended): every status patch either writes the Failed transition —
phase, root cause and timestamp together, suggestion untouched — or the
Completed transition — phase, root cause, suggestion and timestamp together
— always as one single patch against the pre-pass snapshot. -/
theorem status_patch_whole_unit :
    ∀ (env : ReconcileEnv) (p : StatusPatch), p ∈ (reconcile env).patches →
      (∃ rc, p.new = { p.base with
                       phase := "Failed"
                       rootCause := rc
                       diagnosisTime := some env.now }) ∨
      (∃ rc sg, p.new = { p.base with
                          phase := "Completed"
                          rootCause := rc
                          suggestion := sg
                          diagnosisTime := some env.now }) := by
  intro env p hp
  unfold reconcile at hp
  cases hget : env.getDiagnosis with
  | storeErr e =>
    rw [hget] at hp
    simp [noEffects] at hp
  | notFound =>
    rw [hget] at hp
    simp [noEffects] at hp
  | found d =>
    rw [hget] at hp
    dsimp only at hp
    by_cases hterm : (d.status.phase == "Completed" || d.status.phase == "Failed") = true
    · rw [if_pos hterm] at hp
      simp [noEffects] at hp
    · rw [if_neg hterm] at hp
      cases hlog : env.logsResult with
      | error e =>
        rw [hlog] at hp
        dsimp only at hp
        simp only [List.mem_singleton] at hp
        subst hp
        exact Or.inl ⟨"获取日志失败: " ++ e, rfl⟩
      | ok logs =>
        rw [hlog] at hp
        dsimp only at hp
        cases hai : callAIEndpoint env.aiEnv d.spec.podName d.spec.triggerReason logs with
        | error e =>
          rw [hai] at hp
          dsimp only at hp
          simp only [List.mem_singleton] at hp
          subst hp
          exact Or.inl ⟨"诊断失败: " ++ e, rfl⟩
        | ok r =>
          rw [hai] at hp
          dsimp only at hp
          simp only [List.mem_singleton] at hp
          subst hp
          exact Or.inr ⟨r.rootCause, r.suggestion, rfl⟩

/-- C6 witness: the amended theorem applied to the log-fetch-failure patch. -/
theorem status_patch_whole_unit_witness :
    (∃ rc, failPatch.new = { failPatch.base with
                             phase := "Failed"
                             rootCause := rc
                             diagnosisTime := some 5 }) ∨
    (∃ rc sg, failPatch.new = { failPatch.base with
                                phase := "Completed"
                                rootCause := rc
                                suggestion := sg
                                diagnosisTime := some 5 }) :=
  status_patch_whole_unit logFailEnv failPatch (List.mem_singleton.mpr rfl)

/-! ## Claim C7 -/

def storeErrEnv : ReconcileEnv :=
  { getDiagnosis := .storeErr "store down", logsResult := .ok ""
    aiEnv := idleAIEnv, podGet := .notFound, patchResult := .ok (), now := 0 }

/-- C7 counterexample: a status-patch failure on the Failed path is not
surfaced — the patch is attempted, the patch result is an error, and the
pass still returns success to the delivery layer. -/
theorem patch_error_swallowed_counterexample :
    logFailEnv.patchResult = .error "patchboom" ∧
    (reconcile logFailEnv).patches = [failPatch] ∧
    (reconcile logFailEnv).result = .ok () := ⟨rfl, rfl, rfl⟩

/-- C7 (amended): the lifecycle get error, the Completed-path patch error,
the watcher's list error and the watcher's create error are all surfaced as
returned errors (the get error with no other effect); but a patch failure
while writing the Failed phase is swallowed — the failure pass always
returns success. -/
theorem store_errors_surfaced :
    (∀ (env : ReconcileEnv) (e : String), env.getDiagnosis = .storeErr e →
      reconcile env = noEffects (.error e)) ∧
    (∀ (env : ReconcileEnv) (d : PodDiagnosis) (logs : String) (r : DiagnosisResult) (e : String),
      env.getDiagnosis = .found d →
      d.status.phase ≠ "Completed" → d.status.phase ≠ "Failed" →
      env.logsResult = .ok logs →
      callAIEndpoint env.aiEnv d.spec.podName d.spec.triggerReason logs = .ok r →
      env.patchResult = .error e →
      (reconcile env).result = .error e) ∧
    (∀ (env : ReconcileEnv) (d : PodDiagnosis),
      env.getDiagnosis = .found d →
      d.status.phase ≠ "Completed" → d.status.phase ≠ "Failed" →
      (∀ logs, env.logsResult = .ok logs →
        ∃ e, callAIEndpoint env.aiEnv d.spec.podName d.spec.triggerReason logs = .error e) →
      (reconcile env).result = .ok ()) ∧
    (∀ (env : WatcherEnv) (pod : Pod) (e : String),
      env.podGet = .found pod → isPodFailed pod = true → env.listResult = .error e →
      podWatcherReconcile env = { created := none, result := .error e }) ∧
    (∀ (env : WatcherEnv) (pod : Pod) (items : List PodDiagnosis) (e : String),
      env.podGet = .found pod → isPodFailed pod = true → env.listResult = .ok items →
      items.any nonTerminal = false → env.setRefResult = .ok () → env.createResult = .error e →
      (podWatcherReconcile env).result = .error e) := by
  refine ⟨?_, ?_, ?_, ?_, ?_⟩
  · intro env e hget
    unfold reconcile
    rw [hget]
  · intro env d logs r e hget hc hf hlog hai hpatch
    unfold reconcile
    rw [hget]
    dsimp only
    rw [if_neg (by simp [hc, hf])]
    rw [hlog]
    dsimp only
    rw [hai]
    dsimp only
    rw [hpatch]
  · intro env d hget hc hf hail
    unfold reconcile
    rw [hget]
    dsimp only
    rw [if_neg (by simp [hc, hf])]
    cases hlog : env.logsResult with
    | error e => rfl
    | ok logs =>
      obtain ⟨e, hai⟩ := hail logs hlog
      dsimp only
      rw [hai]
  · intro env pod e hget hfail hlist
    unfold podWatcherReconcile
    rw [hget]
    dsimp only
    rw [if_neg (by simp [hfail])]
    rw [hlist]
  · intro env pod items e hget hfail hlist hany hsr hcr
    unfold podWatcherReconcile
    rw [hget]
    dsimp only
    rw [if_neg (by simp [hfail])]
    rw [hlist]
    dsimp only
    rw [if_neg (by simp [hany])]
    rw [hsr]
    dsimp only
    rw [hcr]

/-- C7 witness: a store error on the request get is surfaced with no other
effect. -/
theorem store_errors_surfaced_witness :
    reconcile storeErrEnv = noEffects (.error "store down") :=
  store_errors_surfaced.1 storeErrEnv "store down" rfl

/-! ## Claim C8 -/

/-- Substring test over the underlying character lists. -/
def strContainsAux (sub : List Char) : List Char → Bool
  | [] => sub.isEmpty
  | c :: rest => sub.isPrefixOf (c :: rest) || strContainsAux sub rest

def strContains (s sub : String) : Bool := strContainsAux sub.data s.data

/-- If no container terminated with a non-zero exit code, the exit-reason
loop finds nothing. -/
theorem containerExitReason_none (l : List ContainerStatus)
    (hz : ∀ s ∈ l, ∀ t, s.state.terminated = some t → t.exitCode = 0) :
    containerExitReason l = none := by
  induction l with
  | nil => rfl
  | cons s rest ih =>
    unfold containerExitReason
    cases ht : s.state.terminated with
    | none => exact ih (fun x hx => hz x (List.mem_cons_of_mem s hx))
    | some t =>
      have hz0 := hz s (List.mem_cons_self s rest) t ht
      dsimp only
      rw [if_neg (by simp [hz0])]
      exact ih (fun x hx => hz x (List.mem_cons_of_mem s hx))

/-- If the exit-reason loop returns a message, it is the formatted message
of some container that terminated with a non-zero exit code. -/
theorem containerExitReason_some (l : List ContainerStatus) (msg : String)
    (h : containerExitReason l = some msg) :
    ∃ s ∈ l, ∃ t, s.state.terminated = some t ∧ t.exitCode ≠ 0 ∧
      msg = "Container " ++ s.name ++ " exited with code " ++
        toString t.exitCode ++ ": " ++ t.reason := by
  induction l with
  | nil => cases h
  | cons s rest ih =>
    unfold containerExitReason at h
    cases ht : s.state.terminated with
    | none =>
      rw [ht] at h
      obtain ⟨x, hx, t, h1, h2, h3⟩ := ih h
      exact ⟨x, List.mem_cons_of_mem s hx, t, h1, h2, h3⟩
    | some t =>
      rw [ht] at h
      dsimp only at h
      by_cases hz : (t.exitCode != 0) = true
      · rw [if_pos hz] at h
        injection h with h
        exact ⟨s, List.mem_cons_self s rest, t, ht, by simpa using hz, h.symm⟩
      · rw [if_neg hz] at h
        obtain ⟨x, hx, t2, h1, h2, h3⟩ := ih h
        exact ⟨x, List.mem_cons_of_mem s hx, t2, h1, h2, h3⟩

/-- C8 counterexample: for a pod entering a CrashLoopBackOff waiting state,
the watcher creates a request whose trigger reason is "Pod entered failed
state: unknown failure" — it does not contain "CrashLoopBackOff". -/
theorem crashloop_trigger_reason_counterexample :
    (podWatcherReconcile watcherEnvW).created = some (newDiagnosisFor crashPod) ∧
    (newDiagnosisFor crashPod).spec.triggerReason =
      "Pod entered failed state: unknown failure" ∧
    strContains (newDiagnosisFor crashPod).spec.triggerReason "CrashLoopBackOff" = false :=
  ⟨rfl, rfl, rfl⟩

/-- C8 (amended): the trigger reason is "Pod entered failed state: R" where
R is the scheduling message only when the pod phase is Failed and a
condition of type "Unschedulable" reports status True, else the
"Container X exited with code N: reason" message of the first container
terminated with a non-zero exit code, else "unknown failure"; in
particular, a pod whose only failure signal is a waiting state (such as
CrashLoopBackOff) gets "unknown failure", which does not name the waiting
reason. -/
theorem trigger_reason_format :
    (∀ pod : Pod,
      (pod.status.phase = "Failed" →
        pod.status.conditions.find? (fun c =>
          c.type == "Unschedulable" && c.status == "True") = none) →
      (∀ s ∈ pod.status.containerStatuses, ∀ t, s.state.terminated = some t → t.exitCode = 0) →
      (newDiagnosisFor pod).spec.triggerReason =
        "Pod entered failed state: unknown failure") ∧
    (∀ (pod : Pod) (msg : String),
      (pod.status.phase = "Failed" →
        pod.status.conditions.find? (fun c =>
          c.type == "Unschedulable" && c.status == "True") = none) →
      containerExitReason pod.status.containerStatuses = some msg →
      (newDiagnosisFor pod).spec.triggerReason = "Pod entered failed state: " ++ msg ∧
      ∃ s ∈ pod.status.containerStatuses, ∃ t, s.state.terminated = some t ∧
        t.exitCode ≠ 0 ∧
        msg = "Container " ++ s.name ++ " exited with code " ++
          toString t.exitCode ++ ": " ++ t.reason) := by
  have hscrut : ∀ pod : Pod,
      (pod.status.phase = "Failed" →
        pod.status.conditions.find? (fun c =>
          c.type == "Unschedulable" && c.status == "True") = none) →
      (if pod.status.phase == "Failed" then
        pod.status.conditions.find? (fun c =>
          c.type == "Unschedulable" && c.status == "True")
      else none) = none := by
    intro pod hcond
    by_cases hf : pod.status.phase = "Failed"
    · rw [if_pos (by simp [hf])]
      exact hcond hf
    · rw [if_neg (by simp [hf])]
  constructor
  · intro pod hcond hz
    show "Pod entered failed state: " ++ getFailureReason pod = _
    unfold getFailureReason
    rw [hscrut pod hcond]
    dsimp only
    rw [containerExitReason_none pod.status.containerStatuses hz]
    rfl
  · intro pod msg hcond hexit
    constructor
    · show "Pod entered failed state: " ++ getFailureReason pod = _
      unfold getFailureReason
      rw [hscrut pod hcond]
      dsimp only
      rw [hexit]
    · exact containerExitReason_some pod.status.containerStatuses msg hexit

/-- C8 witness: the amended theorem applied to the crash-looping pod. -/
theorem trigger_reason_format_witness :
    (newDiagnosisFor crashPod).spec.triggerReason =
      "Pod entered failed state: unknown failure" :=
  trigger_reason_format.1 crashPod
    (fun h => absurd h (by decide))
    (fun s hs t ht => by
      simp only [crashPod, crashState, List.mem_singleton] at hs
      subst hs
      simp at ht)

end AIDiagnostic
